import Mathlib

/-!
Verification development for `src/scripts/download-fuel-map.py`, a CLI
utility that parses a bounding box from a GeoJSON polygon file, searches
the USGS EROS M2M catalog for scenes in that box, and downloads each
scene to a file.

The script is shallowly embedded: floating-point coordinates become `ℚ`
(only order comparisons matter here), JSON response dictionaries become
typed structures with `Option` fields for possibly-absent keys, and the
side effects (HTTP POST/GET, console prints, directory creation, file
writes) become an explicit event trace produced by pure functions over
an `Env` of mocked remote responses.
-/

namespace FuelMap

/-- A bounding box `(min_lon, min_lat, max_lon, max_lat)` as returned by
`parse_geojson_bbox` and consumed by `search_nlcd`. -/
structure BBox where
  minLon : ℚ
  minLat : ℚ
  maxLon : ℚ
  maxLat : ℚ
  deriving Repr, DecidableEq

/-- Geometry type tag of a shapely geometry, as far as the script
observes it: the `isinstance(union_geom, (Polygon, MultiPolygon))` check
only distinguishes polygonal geometries from everything else. -/
inductive GType where
  | polygon
  | multiPolygon
  | other
  deriving Repr, DecidableEq, BEq

/-- Model of a shapely geometry as the script observes it: its type tag,
its coordinate vertices (for a polygonal geometry the extreme
coordinates, hence `bounds`, are attained at vertices), and its
`is_valid` flag. -/
structure Geometry where
  gtype : GType
  vertices : List (ℚ × ℚ)
  isValid : Bool
  deriving Repr, DecidableEq

/-- One step of the bounds accumulation: extend a running bounding box
with one more coordinate pair. -/
def boundsStep (b : BBox) (p : ℚ × ℚ) : BBox :=
  { minLon := min b.minLon p.1
    minLat := min b.minLat p.2
    maxLon := max b.maxLon p.1
    maxLat := max b.maxLat p.2 }

/-- Model of shapely `.bounds` on a geometry's coordinates:
`(minx, miny, maxx, maxy)` over all vertices, `none` for an empty
geometry (where shapely yields an empty/NaN tuple and the script's
4-tuple unpacking fails). -/
def boundsOf : List (ℚ × ℚ) → Option BBox
  | [] => none
  | p :: ps => some (ps.foldl boundsStep ⟨p.1, p.2, p.1, p.2⟩)

/-- Componentwise union of two bounding boxes: min of the mins, max of
the maxes.  This is the spec-side operation C1 compares against. -/
def bboxUnion (a b : BBox) : BBox :=
  { minLon := min a.minLon b.minLon
    minLat := min a.minLat b.minLat
    maxLon := max a.maxLon b.maxLon
    maxLat := max a.maxLat b.maxLat }

/-- Model of `shapely.ops.unary_union` restricted to what the script
observes.  The union of a nonempty list of polygonal geometries is a
valid (multi)polygon whose extreme coordinates — hence whose `bounds` —
are those of the combined vertex lists; for an empty or non-polygonal
input the result is not a (Multi)Polygon (e.g. an empty
GeometryCollection), which the script rejects via its `isinstance`
check. -/
def unary_union (gs : List Geometry) : Geometry :=
  { gtype :=
      if gs ≠ [] ∧ ∀ g ∈ gs, g.gtype = GType.polygon ∨ g.gtype = GType.multiPolygon then
        GType.multiPolygon
      else GType.other
    vertices := gs.flatMap (·.vertices)
    isValid := true }

/-- Model of the script's `buffer(0)` repair: it returns a valid
geometry over the same coordinates (the repair can reassemble rings but
does not move vertices, so bounds are unchanged). -/
def buffer0 (g : Geometry) : Geometry :=
  { g with isValid := true }

/-- The GeoJSON input shapes the script distinguishes: a
`FeatureCollection` (geometries of its features), a single `Feature`, a
direct geometry object, or a JSON value with no `type` field (which
raises `ValueError`). -/
inductive GeoJSON where
  | featureCollection (features : List Geometry)
  | feature (g : Geometry)
  | direct (g : Geometry)
  | missingType
  deriving Repr

/-- Shared tail of `parse_geojson_bbox` after the geometry list has been
collected: take the single geometry or the `unary_union`, repair with
`buffer(0)` if invalid, check the polygonal `isinstance`, and unpack
`.bounds`. -/
def bboxFromGeometries (geometries : List Geometry) : Except String BBox :=
  let union0 : Geometry :=
    match geometries with
    | [g] => g
    | gs => unary_union gs
  let union_geom := if union0.isValid then union0 else buffer0 union0
  if union_geom.gtype = GType.polygon ∨ union_geom.gtype = GType.multiPolygon then
    match boundsOf union_geom.vertices with
    | some b => Except.ok b
    | none => Except.error "crash: empty geometry has no unpackable bounds"
  else
    Except.error "GeoJSON does not contain valid polygon geometry."

/-- The function `parse_geojson_bbox`: collect the geometries according to the
GeoJSON `type`, union them, repair if invalid, and return the bounds.
Errors model the `ValueError`s the Python function raises (uncaught by
`main`). -/
def parse_geojson_bbox : GeoJSON → Except String BBox
  | GeoJSON.missingType => Except.error "Invalid GeoJSON: missing 'type' field."
  | GeoJSON.featureCollection fs => bboxFromGeometries fs
  | GeoJSON.feature g => bboxFromGeometries [g]
  | GeoJSON.direct g => bboxFromGeometries [g]

/-- A scene record of the search response: `entityId` (accessed with
`scene['entityId']`) plus the optional `displayId`. -/
structure Scene where
  entityId : String
  displayId : Option String
  deriving Repr

/-- The `data` object of the search response: the `results` list may be
absent (`none`). -/
structure SearchData where
  results : Option (List Scene)
  deriving Repr

/-- The search response: the `data` key may be absent (`none`). -/
structure SearchResponse where
  data : Option SearchData
  deriving Repr

/-- One item of the download-options `data` list: a product `id` and the
`available` flag (`item.get('available')`, absent meaning falsy). -/
structure DownloadOption where
  id : String
  available : Bool
  deriving Repr

/-- The download-options response; `data = none` covers both a falsy
response and a response whose `data` key is absent, the two conditions
of `if not download_opts or 'data' not in download_opts`. -/
structure DownloadOptionsResponse where
  data : Option (List DownloadOption)
  deriving Repr

/-- The `data` object of the download-request response:
`availableDownloads` is a list of objects whose `url` field is read
(modelled by the URL strings), `preparingDownloads` is a list of opaque
entries that are only printed (modelled by strings). -/
structure DownloadRequestData where
  availableDownloads : List String
  preparingDownloads : List String
  deriving Repr

/-- The download-request response; `data = none` covers a falsy `data`
value (absent, null or empty dict), the condition of
`if not download_request_resp.get('data')`. -/
structure DownloadRequestResponse where
  data : Option DownloadRequestData
  deriving Repr

/-- Mocked external world for one run: the credential environment
variable, the HTTP status code and body of each remote call (per scene
entity id for the two scene-specific POSTs, per URL for the file GET). -/
structure Env where
  apiToken : Option String
  searchStatus : Nat
  searchResp : SearchResponse
  optsStatus : String → Nat
  optsResp : String → DownloadOptionsResponse
  reqStatus : String → Nat
  reqResp : String → DownloadRequestResponse
  getStatus : String → Nat
  getBody : String → String

/-- Semantics of `raise_for_status` in the requests library: an exception is raised for
4xx and 5xx status codes. -/
def raisesForStatus (s : Nat) : Bool :=
  400 ≤ s && s < 600

/-- Observable events of a run: the three POST endpoints (with the
payload fields the claims are about), the file GET, console lines,
output-directory creation and file writes. -/
inductive Event where
  | post_search (bbox : BBox)
  | post_options (entityId : String)
  | post_request (entityId : String) (productId : String)
  | get_file (url : String)
  | println (msg : String)
  | mkdirOut (dir : String)
  | write_file (path : String) (contents : String)
  deriving Repr, DecidableEq

/-- Result of a run: a deliberate exit status (`sys.exit` or falling off
the end of `main`, which exits 0), or an uncaught Python exception,
which the interpreter reports to the console as a traceback and turns
into exit status 1. -/
inductive RunResult where
  | exit (code : Nat)
  | crash (msg : String)
  deriving Repr, DecidableEq

/-- The function `download_scene`: request download options, pick the first available
product, stage the download request, and if a download is immediately
available create the output directory and stream the body to
`<out_dir>/<entityId>.tif`.  Returns the written filename (Python
returns the path or `None`), or `Except.error` for an uncaught
exception, together with the trace of events it performed.  The
streaming `iter_content` loop is modelled as writing the whole response
body. -/
def download_scene (env : Env) (scene_entity_id : String) (out_dir : String) :
    Except String (Option String) × List Event :=
  let ev1 : List Event := [Event.post_options scene_entity_id]
  if raisesForStatus (env.optsStatus scene_entity_id) then
    (Except.error "HTTPError: download-options",
     ev1 ++ [Event.println "Traceback: requests.exceptions.HTTPError"])
  else
    match (env.optsResp scene_entity_id).data with
    | none =>
        (Except.ok none,
         ev1 ++ [Event.println ("[WARN] No download options returned for scene: " ++ scene_entity_id)])
    | some items =>
      match (items.find? (fun item => item.available)).map (fun item => item.id) with
      | none =>
          (Except.ok none,
           ev1 ++ [Event.println ("[WARN] No available products for scene: " ++ scene_entity_id)])
      | some product_id =>
        let ev2 := ev1 ++ [Event.post_request scene_entity_id product_id]
        if raisesForStatus (env.reqStatus scene_entity_id) then
          (Except.error "HTTPError: download-request",
           ev2 ++ [Event.println "Traceback: requests.exceptions.HTTPError"])
        else
          match (env.reqResp scene_entity_id).data with
          | none =>
              (Except.ok none,
               ev2 ++ [Event.println ("[ERROR] Could not stage download for scene: " ++ scene_entity_id)])
          | some d =>
            match d.availableDownloads with
            | [] =>
                (Except.ok none,
                 ev2 ++ [Event.println "[INFO] Download is being prepared; no immediate link available."]
                     ++ (if d.preparingDownloads.isEmpty then []
                         else [Event.println "[INFO] Scenes in 'preparing' status: (list)"]))
            | download_url :: _ =>
              let local_filename := out_dir ++ "/" ++ scene_entity_id ++ ".tif"
              let ev3 := ev2 ++ [Event.mkdirOut out_dir,
                                 Event.println ("[INFO] Downloading scene to: " ++ local_filename),
                                 Event.get_file download_url]
              if raisesForStatus (env.getStatus download_url) then
                (Except.error "HTTPError: file GET",
                 ev3 ++ [Event.println "Traceback: requests.exceptions.HTTPError"])
              else
                (Except.ok (some local_filename),
                 ev3 ++ [Event.write_file local_filename (env.getBody download_url),
                         Event.println ("[INFO] Download complete: " ++ local_filename)])

/-- The console line `main` prints for one scene of the results list. -/
def sceneLine (s : Scene) : Event :=
  Event.println ("Scene ID: " ++ s.entityId ++ "  Name: " ++ s.displayId.getD "UnknownNLCDScene")

/-- The `for idx, scene in enumerate(scenes)` loop of `main`: print the
scene line, call `download_scene`, and continue with the rest; an
uncaught exception in `download_scene` aborts the whole run. -/
def downloadLoop (env : Env) (out_dir : String) :
    List Scene → List Event → RunResult × List Event
  | [], acc => (RunResult.exit 0, acc)
  | scene :: rest, acc =>
    let acc1 := acc ++ [sceneLine scene]
    match download_scene env scene.entityId out_dir with
    | (Except.error e, evs) => (RunResult.crash e, acc1 ++ evs)
    | (Except.ok _, evs) => downloadLoop env out_dir rest (acc1 ++ evs)

/-- The search-and-download tail of `main`, shared by both script
variants: `search_nlcd` (one `scene-search` POST with the bounding box),
the response-shape checks, and the per-scene download loop. -/
def searchAndDownload (env : Env) (bbox : BBox) (out_dir : String) : RunResult × List Event :=
  let ev1 : List Event :=
    [Event.println "[INFO] Searching for dataset NLCD2019_ID",
     Event.post_search bbox]
  if raisesForStatus env.searchStatus then
    (RunResult.crash "HTTPError: scene-search",
     ev1 ++ [Event.println "Traceback: requests.exceptions.HTTPError"])
  else
    match env.searchResp.data with
    | none => (RunResult.exit 1, ev1 ++ [Event.println "[ERROR] Unexpected search response:"])
    | some d =>
      match d.results with
      | none =>
          (RunResult.exit 0, ev1 ++ [Event.println "[INFO] No scenes found in the specified region."])
      | some [] =>
          (RunResult.exit 0, ev1 ++ [Event.println "[INFO] No scenes found in the specified region."])
      | some scenes =>
        downloadLoop env out_dir scenes
          (ev1 ++ [Event.println "[INFO] Found scene(s). Downloading."])

/-- The `main` function of the script (its `--geojson` variant, the one in the
repository): read the credential, parse the bounding box, search, and
download every returned scene.  Produces the run result and the full
event trace. -/
def mainRun (env : Env) (gj : GeoJSON) (out_dir : String) : RunResult × List Event :=
  match env.apiToken with
  | none => (RunResult.exit 1, [Event.println "Error: EROS_API_TOKEN environment variable not set."])
  | some _ =>
    match parse_geojson_bbox gj with
    | Except.error e => (RunResult.crash e, [Event.println ("Traceback: ValueError: " ++ e)])
    | Except.ok bbox =>
      (searchAndDownload env bbox out_dir).map id
        (fun t => Event.println "[INFO] Parsed bounding box from GeoJSON" :: t)

/-- Modelled from the spec: ordering validation of the repository's
second, near-duplicate script variant, which accepts the bounding box as
four literal numbers (`--bbox minLon minLat maxLon maxLat`) and is not
under `src/`.  Per the spec it must "validate ordering" and reject a box
with min > max on an axis. -/
def validate_bbox_order (minLon minLat maxLon maxLat : ℚ) : Except String BBox :=
  if maxLon < minLon ∨ maxLat < minLat then
    Except.error "Invalid bounding box: min exceeds max on an axis."
  else
    Except.ok ⟨minLon, minLat, maxLon, maxLat⟩

/-- Modelled from the spec: `main` of the `--bbox` literal variant
(absent from `src/`): read the credential, validate the four literal
coordinates, then run the shared search-and-download pipeline.  A box
failing validation is rejected with a nonzero exit before any network
call. -/
def mainRunLiteral (env : Env) (minLon minLat maxLon maxLat : ℚ) (out_dir : String) :
    RunResult × List Event :=
  match env.apiToken with
  | none => (RunResult.exit 1, [Event.println "Error: EROS_API_TOKEN environment variable not set."])
  | some _ =>
    match validate_bbox_order minLon minLat maxLon maxLat with
    | Except.error e => (RunResult.exit 1, [Event.println ("Error: " ++ e)])
    | Except.ok bbox => searchAndDownload env bbox out_dir

/-- Network events: the three API POSTs and the file GET. -/
def isNetworkEvent : Event → Bool
  | Event.post_search _ => true
  | Event.post_options _ => true
  | Event.post_request _ _ => true
  | Event.get_file _ => true
  | _ => false

/-- Events constituting a download attempt: the download-options POST,
the download-request POST, and the file GET. -/
def isDownloadAttempt : Event → Bool
  | Event.post_options _ => true
  | Event.post_request _ _ => true
  | Event.get_file _ => true
  | _ => false

/-- The files written during a trace: `(path, contents)` pairs of its
`write_file` events, in order. -/
def writesOf : List Event → List (String × String)
  | [] => []
  | Event.write_file p c :: t => (p, c) :: writesOf t
  | _ :: t => writesOf t

/-- Whether a trace creates the output directory. -/
def hasMkdir (t : List Event) : Bool :=
  t.any fun e =>
    match e with
    | Event.mkdirOut _ => true
    | _ => false

/-- Union of the per-feature bounds of a list of geometries:
componentwise min of the mins and max of the maxes, the spec-side value
claim C1 compares the parsed box against.  `none` as soon as some
feature is empty. -/
def perFeatureBounds : List Geometry → Option BBox
  | [] => none
  | g :: gs =>
    match boundsOf g.vertices, perFeatureBounds gs with
    | some b, some c => some (bboxUnion b c)
    | some b, none => some b
    | none, _ => none

/-- Whether an event is the `scene-search` POST. -/
def isPostSearchEv : Event → Bool
  | Event.post_search _ => true
  | _ => false

/-- Whether an event is a `download-options` POST. -/
def isPostOptionsEv : Event → Bool
  | Event.post_options _ => true
  | _ => false

/-- Whether an event is a `download-request` POST. -/
def isPostRequestEv : Event → Bool
  | Event.post_request _ _ => true
  | _ => false

/-- Whether an event is the file GET. -/
def isGetEv : Event → Bool
  | Event.get_file _ => true
  | _ => false

/-- Whether an event is a console line. -/
def isPrintlnEv : Event → Bool
  | Event.println _ => true
  | _ => false

/-- A unit square at the origin, used as a concrete polygon feature. -/
def squareA : Geometry := ⟨GType.polygon, [(0, 0), (1, 0), (1, 1), (0, 1)], true⟩

/-- A disjoint unit square at (2,2), used as a concrete polygon feature. -/
def squareB : Geometry := ⟨GType.polygon, [(2, 2), (3, 2), (3, 3), (2, 3)], true⟩

/-- A fully successful mocked environment with an empty result list,
used as a base for concrete runs. -/
def envBase : Env :=
  { apiToken := some "token"
    searchStatus := 200
    searchResp := ⟨some ⟨some []⟩⟩
    optsStatus := fun _ => 200
    optsResp := fun _ => ⟨some []⟩
    reqStatus := fun _ => 200
    reqResp := fun _ => ⟨some ⟨[], []⟩⟩
    getStatus := fun _ => 200
    getBody := fun _ => "" }

/-- Environment whose search response has a `data` object without a
`results` key. -/
def envNoResults : Env := { envBase with searchResp := ⟨some ⟨none⟩⟩ }

/-- Environment returning two scenes, one available product per scene,
and an immediately available download URL `u-<sceneId>` whose body is
`bytes-<sceneId>`. -/
def envTwoScenes : Env :=
  { envBase with
    searchResp := ⟨some ⟨some [⟨"S1", some "Scene One"⟩, ⟨"S2", some "Scene Two"⟩]⟩⟩
    optsResp := fun sid => ⟨some [⟨"P-" ++ sid, true⟩]⟩
    reqResp := fun sid => ⟨some ⟨["u-" ++ sid], []⟩⟩
    getBody := fun url => "bytes-" ++ url }

/-- Environment whose download request reports the artifact as still
preparing for every scene. -/
def envPreparing : Env :=
  { envTwoScenes with
    reqResp := fun sid => ⟨some ⟨[], ["pending-" ++ sid]⟩⟩ }

theorem boundsStep_bboxUnion (b c : BBox) (p : ℚ × ℚ) :
    boundsStep (bboxUnion b c) p = bboxUnion b (boundsStep c p) := by
  simp [boundsStep, bboxUnion, min_assoc, max_assoc]

theorem foldl_boundsStep_bboxUnion (ws : List (ℚ × ℚ)) (b c : BBox) :
    ws.foldl boundsStep (bboxUnion b c) = bboxUnion b (ws.foldl boundsStep c) := by
  induction ws generalizing c with
  | nil => rfl
  | cons w ws ih => simp only [List.foldl_cons, boundsStep_bboxUnion, ih]

theorem boundsOf_eq_none (vs : List (ℚ × ℚ)) : boundsOf vs = none ↔ vs = [] := by
  cases vs <;> simp [boundsOf]

theorem boundsOf_of_ne_nil (vs : List (ℚ × ℚ)) (h : vs ≠ []) :
    ∃ b, boundsOf vs = some b := by
  cases vs with
  | nil => exact absurd rfl h
  | cons p ps => exact ⟨_, rfl⟩

theorem boundsOf_append (xs ys : List (ℚ × ℚ)) (bx bY : BBox)
    (hx : boundsOf xs = some bx) (hy : boundsOf ys = some bY) :
    boundsOf (xs ++ ys) = some (bboxUnion bx bY) := by
  match xs, ys with
  | [], _ => simp [boundsOf] at hx
  | _, [] => simp [boundsOf] at hy
  | p :: ps, q :: qs =>
    simp only [boundsOf, Option.some.injEq] at hx hy
    have step1 : boundsOf ((p :: ps) ++ (q :: qs)) =
        some ((q :: qs).foldl boundsStep (ps.foldl boundsStep ⟨p.1, p.2, p.1, p.2⟩)) := by
      simp [boundsOf, List.foldl_append]
    rw [step1, hx]
    have step2 : (q :: qs).foldl boundsStep bx =
        qs.foldl boundsStep (bboxUnion bx ⟨q.1, q.2, q.1, q.2⟩) := rfl
    rw [step2, foldl_boundsStep_bboxUnion]
    have step3 : qs.foldl boundsStep ⟨q.1, q.2, q.1, q.2⟩ = bY := hy
    rw [step3]

theorem boundsOf_flatMap (gs : List Geometry)
    (h : ∀ g ∈ gs, g.vertices ≠ []) :
    boundsOf (gs.flatMap (fun g => g.vertices)) = perFeatureBounds gs := by
  induction gs with
  | nil => rfl
  | cons g gs ih =>
    have hg : g.vertices ≠ [] := h g (List.mem_cons_self g gs)
    have hrest : ∀ x ∈ gs, x.vertices ≠ [] := fun x hx => h x (List.mem_cons_of_mem _ hx)
    obtain ⟨b, hb⟩ := boundsOf_of_ne_nil _ hg
    rw [List.flatMap_cons]
    cases hpf : perFeatureBounds gs with
    | none =>
        have hnone : boundsOf (gs.flatMap (fun g => g.vertices)) = none := by
          rw [ih hrest, hpf]
        have hnil : gs.flatMap (fun g => g.vertices) = [] := (boundsOf_eq_none _).mp hnone
        rw [hnil, List.append_nil, hb]
        simp [perFeatureBounds, hb, hpf]
    | some c =>
        have hc : boundsOf (gs.flatMap (fun g => g.vertices)) = some c := by
          rw [ih hrest, hpf]
        rw [boundsOf_append _ _ b c hb hc]
        simp [perFeatureBounds, hb, hpf]

/-- C1: for every GeoJSON FeatureCollection whose features are
(nonempty) polygons, `parse_geojson_bbox` returns the bounds of the
union of all input polygons — repaired via `buffer(0)` when invalid —
which equal the union of the per-feature bounds: componentwise min of
the mins and max of the maxes. -/
theorem parse_geojson_bbox_is_union_of_feature_bounds
    (fs : List Geometry) (u : BBox)
    (hne : fs ≠ [])
    (hpoly : ∀ g ∈ fs, g.gtype = GType.polygon)
    (hvert : ∀ g ∈ fs, g.vertices ≠ [])
    (hu : perFeatureBounds fs = some u) :
    parse_geojson_bbox (GeoJSON.featureCollection fs) = Except.ok u := by
  match fs, hne with
  | [g], _ =>
    have hgp : g.gtype = GType.polygon := hpoly g (by simp)
    have hgv : g.vertices ≠ [] := hvert g (by simp)
    obtain ⟨b, hb⟩ := boundsOf_of_ne_nil _ hgv
    have hbu : b = u := by
      simp only [perFeatureBounds, hb] at hu
      exact Option.some.inj hu
    subst hbu
    unfold parse_geojson_bbox bboxFromGeometries
    cases hval : g.isValid <;> simp [hval, buffer0, hgp, hb]
  | g1 :: g2 :: t, _ =>
    have hcond : g1 :: g2 :: t ≠ [] ∧
        ∀ g ∈ g1 :: g2 :: t, g.gtype = GType.polygon ∨ g.gtype = GType.multiPolygon :=
      ⟨by simp, fun g hg => Or.inl (hpoly g hg)⟩
    have hflat : boundsOf ((g1 :: g2 :: t).flatMap (fun g => g.vertices)) = some u := by
      rw [boundsOf_flatMap _ hvert, hu]
    simp only [List.flatMap_cons] at hflat
    have hall : ∀ a ∈ t, a.gtype = GType.polygon ∨ a.gtype = GType.multiPolygon :=
      fun a ha => Or.inl (hpoly a (by simp [ha]))
    unfold parse_geojson_bbox bboxFromGeometries unary_union
    simp [hcond, hflat, hall]
    rw [if_pos hall]
    intro _ x hx hnp
    exact (hall x hx).resolve_left hnp

/-- Witness for C1: a FeatureCollection of two disjoint unit squares
yields the componentwise union box (0,0,3,3). -/
theorem parse_geojson_bbox_is_union_of_feature_bounds_witness :
    parse_geojson_bbox (GeoJSON.featureCollection [squareA, squareB]) =
      Except.ok ⟨0, 0, 3, 3⟩ :=
  parse_geojson_bbox_is_union_of_feature_bounds [squareA, squareB] ⟨0, 0, 3, 3⟩
    (by decide) (by decide) (by decide) (by decide)

/-- C2: in the literal `--bbox` variant (modelled from the spec), a
bounding box with min > max on some axis is rejected — the run exits
with status 1 — and the trace contains no network event whatsoever, so
rejection happens before any network call. -/
theorem literal_bbox_min_gt_max_rejected_before_network
    (env : Env) (k : String) (minLon minLat maxLon maxLat : ℚ) (out : String)
    (htok : env.apiToken = some k)
    (hbad : maxLon < minLon ∨ maxLat < minLat) :
    (mainRunLiteral env minLon minLat maxLon maxLat out).1 = RunResult.exit 1 ∧
    ∀ e ∈ (mainRunLiteral env minLon minLat maxLon maxLat out).2,
      isNetworkEvent e = false := by
  unfold mainRunLiteral validate_bbox_order
  rw [htok, if_pos hbad]
  refine ⟨rfl, ?_⟩
  intro e he
  simp only [List.mem_singleton] at he
  subst he
  rfl

/-- Witness for C2 at the inverted box (1,0)-(0,0). -/
theorem literal_bbox_min_gt_max_rejected_before_network_witness :
    (mainRunLiteral envBase 1 0 0 0 "downloads").1 = RunResult.exit 1 ∧
    ∀ e ∈ (mainRunLiteral envBase 1 0 0 0 "downloads").2,
      isNetworkEvent e = false :=
  literal_bbox_min_gt_max_rejected_before_network envBase "token" 1 0 0 0 "downloads"
    rfl (by decide)

/-- C3 counterexample: on a search response whose `data` object lacks a
`results` field, the run terminates with exit status 0 — `main` treats
the missing key as "no scenes found" (`sys.exit(0)`) — contradicting the
claimed non-zero exit status. -/
theorem search_missing_results_exit_zero_counterexample :
    (mainRun envNoResults (GeoJSON.feature squareA) "downloads").1 = RunResult.exit 0 := by
  decide

/-- C3 amended: for every search response whose `data` object lacks a
`results` field, the run terminates with exit status 0 (the missing key
is treated like an empty result list) and no download is attempted. -/
theorem search_missing_results_exits_zero_no_download
    (env : Env) (gj : GeoJSON) (out k : String) (bbox : BBox)
    (htok : env.apiToken = some k)
    (hparse : parse_geojson_bbox gj = Except.ok bbox)
    (hstatus : raisesForStatus env.searchStatus = false)
    (hdata : env.searchResp.data = some { results := none }) :
    (mainRun env gj out).1 = RunResult.exit 0 ∧
    ∀ e ∈ (mainRun env gj out).2, isDownloadAttempt e = false := by
  unfold mainRun searchAndDownload
  rw [htok, hparse, hstatus, hdata]
  refine ⟨rfl, ?_⟩
  intro e he
  simp at he
  rcases he with rfl | rfl | rfl | rfl <;> rfl

/-- Witness for the amended C3. -/
theorem search_missing_results_exits_zero_no_download_witness :
    (mainRun envNoResults (GeoJSON.feature squareA) "downloads").1 = RunResult.exit 0 ∧
    ∀ e ∈ (mainRun envNoResults (GeoJSON.feature squareA) "downloads").2,
      isDownloadAttempt e = false :=
  search_missing_results_exits_zero_no_download envNoResults (GeoJSON.feature squareA)
    "downloads" "token" ⟨0, 0, 1, 1⟩ rfl (by rfl) rfl rfl

theorem downloadLoop_ok_exit_zero (env : Env) (out : String) (scenes : List Scene)
    (h : ∀ s ∈ scenes, ∃ v evs, download_scene env s.entityId out = (Except.ok v, evs)) :
    ∀ acc, (downloadLoop env out scenes acc).1 = RunResult.exit 0 := by
  induction scenes with
  | nil => intro acc; rfl
  | cons s rest ih =>
    intro acc
    obtain ⟨v, evs, hds⟩ := h s (List.mem_cons_self s rest)
    unfold downloadLoop
    rw [hds]
    exact ih (fun x hx => h x (List.mem_cons_of_mem _ hx)) _

theorem downloadLoop_result_cases (env : Env) (out : String) (scenes : List Scene) :
    ∀ acc, (downloadLoop env out scenes acc).1 = RunResult.exit 0 ∨
      ∃ m, (downloadLoop env out scenes acc).1 = RunResult.crash m := by
  induction scenes with
  | nil => intro acc; left; rfl
  | cons s rest ih =>
    intro acc
    unfold downloadLoop
    cases hds : download_scene env s.entityId out with
    | mk r evs =>
      cases r with
      | error e => right; exact ⟨e, rfl⟩
      | ok v => exact ih _

/-- Every run ends in exit 0, exit 1, or an uncaught exception (which
the Python interpreter turns into exit status 1). -/
theorem mainRun_result_cases (env : Env) (gj : GeoJSON) (out : String) :
    (mainRun env gj out).1 = RunResult.exit 0 ∨ (mainRun env gj out).1 = RunResult.exit 1 ∨
    ∃ m, (mainRun env gj out).1 = RunResult.crash m := by
  unfold mainRun
  cases env.apiToken with
  | none => right; left; rfl
  | some k =>
    cases parse_geojson_bbox gj with
    | error e => right; right; exact ⟨e, rfl⟩
    | ok bbox =>
      unfold searchAndDownload
      cases hs : raisesForStatus env.searchStatus with
      | true => right; right; exact ⟨_, rfl⟩
      | false =>
        cases env.searchResp.data with
        | none => right; left; rfl
        | some d =>
          obtain ⟨res⟩ := d
          cases res with
          | none => left; rfl
          | some scenes =>
            cases scenes with
            | nil => left; rfl
            | cons s rest =>
              rcases downloadLoop_result_cases env out (s :: rest)
                  ([Event.println "[INFO] Searching for dataset NLCD2019_ID",
                    Event.post_search bbox] ++
                   [Event.println "[INFO] Found scene(s). Downloading."]) with h | ⟨m, h⟩
              · left; exact h
              · right; right; exact ⟨m, h⟩

/-- C4: the deliberate exit-status taxonomy of `main`: exit 1 when the
credential environment variable is missing; exit 1 when the search
response lacks its `data` object (malformed); exit 0 when the search
returns no results (missing or empty `results` list); exit 0 on success
(the per-scene loop completes without an uncaught exception).  Moreover
every run ends in exit 0, exit 1, or an uncaught exception. -/
theorem main_exit_status_taxonomy (env : Env) (gj : GeoJSON) (out : String) :
    (env.apiToken = none → (mainRun env gj out).1 = RunResult.exit 1) ∧
    (∀ k bbox, env.apiToken = some k → parse_geojson_bbox gj = Except.ok bbox →
      raisesForStatus env.searchStatus = false → env.searchResp.data = none →
      (mainRun env gj out).1 = RunResult.exit 1) ∧
    (∀ k bbox, env.apiToken = some k → parse_geojson_bbox gj = Except.ok bbox →
      raisesForStatus env.searchStatus = false →
      (env.searchResp.data = some { results := none } ∨
       env.searchResp.data = some { results := some [] }) →
      (mainRun env gj out).1 = RunResult.exit 0) ∧
    (∀ k bbox scenes, env.apiToken = some k → parse_geojson_bbox gj = Except.ok bbox →
      raisesForStatus env.searchStatus = false →
      env.searchResp.data = some { results := some scenes } →
      (∀ s ∈ scenes, ∃ v evs, download_scene env s.entityId out = (Except.ok v, evs)) →
      (mainRun env gj out).1 = RunResult.exit 0) ∧
    ((mainRun env gj out).1 = RunResult.exit 0 ∨ (mainRun env gj out).1 = RunResult.exit 1 ∨
      ∃ m, (mainRun env gj out).1 = RunResult.crash m) := by
  refine ⟨?_, ?_, ?_, ?_, mainRun_result_cases env gj out⟩
  · intro htok
    unfold mainRun
    rw [htok]
  · intro k bbox htok hparse hstatus hdata
    unfold mainRun searchAndDownload
    rw [htok, hparse, hstatus, hdata]
    rfl
  · intro k bbox htok hparse hstatus hres
    rcases hres with h | h <;>
      · unfold mainRun searchAndDownload
        rw [htok, hparse, hstatus, h]
        rfl
  · intro k bbox scenes htok hparse hstatus hdata hok
    unfold mainRun searchAndDownload
    rw [htok, hparse, hstatus, hdata]
    cases scenes with
    | nil => rfl
    | cons s rest =>
      exact downloadLoop_ok_exit_zero env out (s :: rest) hok
        ([Event.println "[INFO] Searching for dataset NLCD2019_ID", Event.post_search bbox] ++
         [Event.println "[INFO] Found scene(s). Downloading."])

/-- Witness for C4: with the credential variable unset the run exits 1. -/
theorem main_exit_status_taxonomy_witness :
    (mainRun { envBase with apiToken := none } (GeoJSON.feature squareA) "downloads").1 =
      RunResult.exit 1 :=
  (main_exit_status_taxonomy { envBase with apiToken := none }
    (GeoJSON.feature squareA) "downloads").1 rfl

theorem download_scene_opts_http_error (env : Env) (sid out : String)
    (h1 : raisesForStatus (env.optsStatus sid) = true) :
    download_scene env sid out =
      (Except.error "HTTPError: download-options",
       [Event.post_options sid, Event.println "Traceback: requests.exceptions.HTTPError"]) := by
  unfold download_scene
  rw [h1]
  rfl

theorem download_scene_no_options (env : Env) (sid out : String)
    (h1 : raisesForStatus (env.optsStatus sid) = false)
    (h2 : (env.optsResp sid).data = none) :
    download_scene env sid out =
      (Except.ok none,
       [Event.post_options sid,
        Event.println ("[WARN] No download options returned for scene: " ++ sid)]) := by
  unfold download_scene
  rw [h1]
  dsimp only
  rw [h2]
  rfl

theorem download_scene_no_available (env : Env) (sid out : String)
    (items : List DownloadOption)
    (h1 : raisesForStatus (env.optsStatus sid) = false)
    (h2 : (env.optsResp sid).data = some items)
    (h3 : items.find? (fun item => item.available) = none) :
    download_scene env sid out =
      (Except.ok none,
       [Event.post_options sid,
        Event.println ("[WARN] No available products for scene: " ++ sid)]) := by
  unfold download_scene
  rw [h1]
  dsimp only
  rw [h2]
  dsimp only
  rw [h3]
  rfl

theorem download_scene_req_http_error (env : Env) (sid out : String)
    (items : List DownloadOption) (it : DownloadOption)
    (h1 : raisesForStatus (env.optsStatus sid) = false)
    (h2 : (env.optsResp sid).data = some items)
    (h3 : items.find? (fun item => item.available) = some it)
    (h4 : raisesForStatus (env.reqStatus sid) = true) :
    download_scene env sid out =
      (Except.error "HTTPError: download-request",
       [Event.post_options sid, Event.post_request sid it.id,
        Event.println "Traceback: requests.exceptions.HTTPError"]) := by
  unfold download_scene
  rw [h1]
  dsimp only
  rw [h2]
  dsimp only
  rw [h3]
  dsimp only [Option.map]
  rw [h4]
  rfl

theorem download_scene_stage_failed (env : Env) (sid out : String)
    (items : List DownloadOption) (it : DownloadOption)
    (h1 : raisesForStatus (env.optsStatus sid) = false)
    (h2 : (env.optsResp sid).data = some items)
    (h3 : items.find? (fun item => item.available) = some it)
    (h4 : raisesForStatus (env.reqStatus sid) = false)
    (h5 : (env.reqResp sid).data = none) :
    download_scene env sid out =
      (Except.ok none,
       [Event.post_options sid, Event.post_request sid it.id,
        Event.println ("[ERROR] Could not stage download for scene: " ++ sid)]) := by
  unfold download_scene
  rw [h1]
  dsimp only
  rw [h2]
  dsimp only
  rw [h3]
  dsimp only [Option.map]
  rw [h4, h5]
  rfl

theorem download_scene_preparing (env : Env) (sid out : String)
    (items : List DownloadOption) (it : DownloadOption) (d : DownloadRequestData)
    (h1 : raisesForStatus (env.optsStatus sid) = false)
    (h2 : (env.optsResp sid).data = some items)
    (h3 : items.find? (fun item => item.available) = some it)
    (h4 : raisesForStatus (env.reqStatus sid) = false)
    (h5 : (env.reqResp sid).data = some d)
    (h6 : d.availableDownloads = [])
    (h7 : d.preparingDownloads.isEmpty = false) :
    download_scene env sid out =
      (Except.ok none,
       [Event.post_options sid, Event.post_request sid it.id,
        Event.println "[INFO] Download is being prepared; no immediate link available.",
        Event.println "[INFO] Scenes in 'preparing' status: (list)"]) := by
  unfold download_scene
  rw [h1]
  dsimp only
  rw [h2]
  dsimp only
  rw [h3]
  dsimp only [Option.map]
  rw [h4, h5]
  dsimp only
  rw [h6, h7]
  rfl

theorem download_scene_success (env : Env) (sid out : String)
    (items : List DownloadOption) (it : DownloadOption) (d : DownloadRequestData)
    (url : String) (urls : List String)
    (h1 : raisesForStatus (env.optsStatus sid) = false)
    (h2 : (env.optsResp sid).data = some items)
    (h3 : items.find? (fun item => item.available) = some it)
    (h4 : raisesForStatus (env.reqStatus sid) = false)
    (h5 : (env.reqResp sid).data = some d)
    (h6 : d.availableDownloads = url :: urls)
    (h7 : raisesForStatus (env.getStatus url) = false) :
    download_scene env sid out =
      (Except.ok (some (out ++ "/" ++ sid ++ ".tif")),
       [Event.post_options sid, Event.post_request sid it.id,
        Event.mkdirOut out,
        Event.println ("[INFO] Downloading scene to: " ++ (out ++ "/" ++ sid ++ ".tif")),
        Event.get_file url,
        Event.write_file (out ++ "/" ++ sid ++ ".tif") (env.getBody url),
        Event.println ("[INFO] Download complete: " ++ (out ++ "/" ++ sid ++ ".tif"))]) := by
  unfold download_scene
  rw [h1]
  dsimp only
  rw [h2]
  dsimp only
  rw [h3]
  dsimp only [Option.map]
  rw [h4, h5]
  dsimp only
  rw [h6]
  dsimp only
  rw [h7]
  rfl

theorem download_scene_preparing_empty (env : Env) (sid out : String)
    (items : List DownloadOption) (it : DownloadOption) (d : DownloadRequestData)
    (h1 : raisesForStatus (env.optsStatus sid) = false)
    (h2 : (env.optsResp sid).data = some items)
    (h3 : items.find? (fun item => item.available) = some it)
    (h4 : raisesForStatus (env.reqStatus sid) = false)
    (h5 : (env.reqResp sid).data = some d)
    (h6 : d.availableDownloads = [])
    (h7 : d.preparingDownloads.isEmpty = true) :
    download_scene env sid out =
      (Except.ok none,
       [Event.post_options sid, Event.post_request sid it.id,
        Event.println "[INFO] Download is being prepared; no immediate link available."]) := by
  unfold download_scene
  rw [h1]
  dsimp only
  rw [h2]
  dsimp only
  rw [h3]
  dsimp only [Option.map]
  rw [h4, h5]
  dsimp only
  rw [h6, h7]
  rfl

theorem download_scene_get_http_error (env : Env) (sid out : String)
    (items : List DownloadOption) (it : DownloadOption) (d : DownloadRequestData)
    (url : String) (urls : List String)
    (h1 : raisesForStatus (env.optsStatus sid) = false)
    (h2 : (env.optsResp sid).data = some items)
    (h3 : items.find? (fun item => item.available) = some it)
    (h4 : raisesForStatus (env.reqStatus sid) = false)
    (h5 : (env.reqResp sid).data = some d)
    (h6 : d.availableDownloads = url :: urls)
    (h7 : raisesForStatus (env.getStatus url) = true) :
    download_scene env sid out =
      (Except.error "HTTPError: file GET",
       [Event.post_options sid, Event.post_request sid it.id,
        Event.mkdirOut out,
        Event.println ("[INFO] Downloading scene to: " ++ (out ++ "/" ++ sid ++ ".tif")),
        Event.get_file url,
        Event.println "Traceback: requests.exceptions.HTTPError"]) := by
  unfold download_scene
  rw [h1]
  dsimp only
  rw [h2]
  dsimp only
  rw [h3]
  dsimp only [Option.map]
  rw [h4, h5]
  dsimp only
  rw [h6]
  dsimp only
  rw [h7]
  rfl

theorem downloadLoop_cons_ok (env : Env) (out : String) (s : Scene) (rest : List Scene)
    (acc : List Event) (v : Option String) (evs : List Event)
    (h : download_scene env s.entityId out = (Except.ok v, evs)) :
    downloadLoop env out (s :: rest) acc =
      downloadLoop env out rest ((acc ++ [sceneLine s]) ++ evs) := by
  simp only [downloadLoop]
  rw [h]

theorem downloadLoop_cons_error (env : Env) (out : String) (s : Scene) (rest : List Scene)
    (acc : List Event) (m : String) (evs : List Event)
    (h : download_scene env s.entityId out = (Except.error m, evs)) :
    downloadLoop env out (s :: rest) acc =
      (RunResult.crash m, (acc ++ [sceneLine s]) ++ evs) := by
  simp only [downloadLoop]
  rw [h]

theorem download_scene_no_post_search (env : Env) (sid out : String) (bb : BBox) :
    Event.post_search bb ∉ (download_scene env sid out).2 := by
  unfold download_scene
  repeat' split
  all_goals intro hmem
  all_goals simp at hmem

theorem downloadLoop_trace (env : Env) (out : String) (scenes : List Scene) :
    ∀ acc, ∃ extra, (downloadLoop env out scenes acc).2 = acc ++ extra ∧
      ∀ bb, Event.post_search bb ∉ extra := by
  induction scenes with
  | nil =>
    intro acc
    exact ⟨[], (List.append_nil acc).symm, by simp⟩
  | cons s rest ih =>
    intro acc
    cases hds : download_scene env s.entityId out with
    | mk r evs =>
      have hnps : ∀ bb, Event.post_search bb ∉ evs := by
        intro bb
        have hmem := download_scene_no_post_search env s.entityId out bb
        rw [hds] at hmem
        exact hmem
      cases r with
      | error m =>
        rw [downloadLoop_cons_error env out s rest acc m evs hds]
        refine ⟨[sceneLine s] ++ evs, by simp, ?_⟩
        intro bb hmem
        rcases List.mem_append.mp hmem with h | h
        · simp [sceneLine] at h
        · exact hnps bb h
      | ok v =>
        obtain ⟨extra, heq1, hnp⟩ := ih ((acc ++ [sceneLine s]) ++ evs)
        rw [downloadLoop_cons_ok env out s rest acc v evs hds, heq1]
        refine ⟨([sceneLine s] ++ evs) ++ extra, by simp, ?_⟩
        intro bb hmem
        rcases List.mem_append.mp hmem with h | h
        · rcases List.mem_append.mp h with h2 | h2
          · simp [sceneLine] at h2
          · exact hnps bb h2
        · exact hnp bb h

theorem download_scene_counts (env : Env) (sid out : String) :
    ((download_scene env sid out).2.countP isPostOptionsEv ≤ 1) ∧
    ((download_scene env sid out).2.countP isPostRequestEv ≤ 1) ∧
    ((download_scene env sid out).2.countP isGetEv ≤ 1) := by
  unfold download_scene
  repeat' split
  all_goals refine ⟨?_, ?_, ?_⟩
  all_goals simp [isPostOptionsEv, isPostRequestEv, isGetEv, List.countP_cons,
    List.countP_nil, List.countP_append]

theorem find?_eq_some_first (p : DownloadOption → Bool) (items : List DownloadOption)
    (it : DownloadOption) (h : items.find? p = some it) :
    p it = true ∧ ∃ pre post, items = pre ++ it :: post ∧ ∀ x ∈ pre, p x = false := by
  induction items with
  | nil => simp [List.find?] at h
  | cons a l ih =>
    cases hpa : p a with
    | true =>
      rw [List.find?_cons_of_pos _ hpa] at h
      cases h
      exact ⟨hpa, [], l, rfl, by simp⟩
    | false =>
      rw [List.find?_cons_of_neg _ (by simp [hpa])] at h
      obtain ⟨hit, pre, post, heq2, hpre⟩ := ih h
      refine ⟨hit, a :: pre, post, by rw [heq2]; rfl, ?_⟩
      intro x hx
      rcases List.mem_cons.mp hx with rfl | hx2
      · exact hpa
      · exact hpre x hx2

theorem writesOf_append (a b : List Event) :
    writesOf (a ++ b) = writesOf a ++ writesOf b := by
  induction a with
  | nil => rfl
  | cons e t ih =>
    cases e <;> simp [writesOf, ih]

theorem countP_post_search_zero (t : List Event)
    (h : ∀ bb, Event.post_search bb ∉ t) :
    t.countP isPostSearchEv = 0 := by
  rw [List.countP_eq_zero]
  intro e he
  cases e
  case post_search bb => exact absurd he (h bb)
  all_goals simp [isPostSearchEv]

theorem mainRun_search_once (env : Env) (gj : GeoJSON) (out : String) :
    (mainRun env gj out).2.countP isPostSearchEv ≤ 1 := by
  unfold mainRun
  cases env.apiToken with
  | none => simp [isPostSearchEv]
  | some k =>
    cases parse_geojson_bbox gj with
    | error e => simp [isPostSearchEv]
    | ok bbox =>
      unfold searchAndDownload
      cases raisesForStatus env.searchStatus with
      | true => simp [isPostSearchEv, List.countP_cons, List.countP_append]
      | false =>
        cases env.searchResp.data with
        | none => simp [isPostSearchEv, List.countP_cons, List.countP_append]
        | some d =>
          obtain ⟨res⟩ := d
          cases res with
          | none => simp [isPostSearchEv, List.countP_cons, List.countP_append]
          | some scenes =>
            cases scenes with
            | nil => simp [isPostSearchEv, List.countP_cons, List.countP_append]
            | cons s rest =>
              obtain ⟨extra, heq2, hnp⟩ := downloadLoop_trace env out (s :: rest)
                ([Event.println "[INFO] Searching for dataset NLCD2019_ID",
                  Event.post_search bbox] ++
                 [Event.println "[INFO] Found scene(s). Downloading."])
              dsimp only [Prod.map]
              rw [if_neg Bool.false_ne_true, heq2]
              simp [isPostSearchEv, List.countP_cons, List.countP_append,
                countP_post_search_zero extra hnp]

theorem mainRun_post_search_is_parsed (env : Env) (gj : GeoJSON) (out : String) (bb : BBox)
    (h : Event.post_search bb ∈ (mainRun env gj out).2) :
    parse_geojson_bbox gj = Except.ok bb := by
  revert h
  unfold mainRun
  cases env.apiToken with
  | none => intro h; simp at h
  | some k =>
    cases hp : parse_geojson_bbox gj with
    | error e => intro h; simp at h
    | ok bbox =>
      unfold searchAndDownload
      cases raisesForStatus env.searchStatus with
      | true =>
        intro h
        simp at h
        rw [h]
      | false =>
        cases env.searchResp.data with
        | none =>
          intro h
          simp at h
          rw [h]
        | some d =>
          obtain ⟨res⟩ := d
          cases res with
          | none =>
            intro h
            simp at h
            rw [h]
          | some scenes =>
            cases scenes with
            | nil =>
              intro h
              simp at h
              rw [h]
            | cons s rest =>
              intro h
              obtain ⟨extra, heq2, hnp⟩ := downloadLoop_trace env out (s :: rest)
                ([Event.println "[INFO] Searching for dataset NLCD2019_ID",
                  Event.post_search bbox] ++
                 [Event.println "[INFO] Found scene(s). Downloading."])
              dsimp only [Prod.map] at h
              rw [if_neg Bool.false_ne_true, heq2] at h
              rcases List.mem_cons.mp h with h2 | h2
              · exact absurd h2 (by simp)
              · rcases List.mem_append.mp h2 with h3 | h3
                · simp at h3
                  rw [h3]
                · exact absurd h3 (hnp bb)

theorem boundsStep_foldl_inv (ps : List (ℚ × ℚ)) :
    ∀ b : BBox, b.minLon ≤ b.maxLon → b.minLat ≤ b.maxLat →
      (ps.foldl boundsStep b).minLon ≤ (ps.foldl boundsStep b).maxLon ∧
      (ps.foldl boundsStep b).minLat ≤ (ps.foldl boundsStep b).maxLat := by
  induction ps with
  | nil => intro b h1 h2; exact ⟨h1, h2⟩
  | cons p ps ih =>
    intro b h1 h2
    apply ih
    · exact le_trans (min_le_left _ _) (le_trans h1 (le_max_left _ _))
    · exact le_trans (min_le_left _ _) (le_trans h2 (le_max_left _ _))

theorem boundsOf_inv (vs : List (ℚ × ℚ)) (b : BBox) (h : boundsOf vs = some b) :
    b.minLon ≤ b.maxLon ∧ b.minLat ≤ b.maxLat := by
  cases vs with
  | nil => simp [boundsOf] at h
  | cons p ps =>
    simp only [boundsOf, Option.some.injEq] at h
    subst h
    exact boundsStep_foldl_inv ps ⟨p.1, p.2, p.1, p.2⟩ le_rfl le_rfl

theorem bboxFromGeometries_ok_inv (gs : List Geometry) (b : BBox)
    (h : bboxFromGeometries gs = Except.ok b) :
    b.minLon ≤ b.maxLon ∧ b.minLat ≤ b.maxLat := by
  unfold bboxFromGeometries at h
  dsimp only at h
  repeat' split at h
  all_goals
    first
      | exact Except.noConfusion h
      | (rename_i hb
         injection h with hbb
         subst hbb
         exact boundsOf_inv _ _ hb)

theorem parse_geojson_bbox_ok_inv (gj : GeoJSON) (b : BBox)
    (h : parse_geojson_bbox gj = Except.ok b) :
    b.minLon ≤ b.maxLon ∧ b.minLat ≤ b.maxLat := by
  cases gj with
  | featureCollection fs => exact bboxFromGeometries_ok_inv fs b h
  | feature g => exact bboxFromGeometries_ok_inv [g] b h
  | direct g => exact bboxFromGeometries_ok_inv [g] b h
  | missingType => exact Except.noConfusion h

/-- C9: every bounding box produced by bounding-box resolution satisfies
min_lon ≤ max_lon and min_lat ≤ max_lat, and the invariant still holds
for the box actually carried by the `scene-search` POST, which is always
the parsed box. -/
theorem bbox_invariant_holds_through_search (env : Env) (gj : GeoJSON) (out : String) :
    (∀ b, parse_geojson_bbox gj = Except.ok b →
      b.minLon ≤ b.maxLon ∧ b.minLat ≤ b.maxLat) ∧
    (∀ bb, Event.post_search bb ∈ (mainRun env gj out).2 →
      bb.minLon ≤ bb.maxLon ∧ bb.minLat ≤ bb.maxLat) := by
  refine ⟨fun b hb => parse_geojson_bbox_ok_inv gj b hb, fun bb hbb => ?_⟩
  exact parse_geojson_bbox_ok_inv gj bb (mainRun_post_search_is_parsed env gj out bb hbb)

/-- Witness for C9 on the unit-square feature. -/
theorem bbox_invariant_holds_through_search_witness :
    (⟨0, 0, 1, 1⟩ : BBox).minLon ≤ (⟨0, 0, 1, 1⟩ : BBox).maxLon ∧
    (⟨0, 0, 1, 1⟩ : BBox).minLat ≤ (⟨0, 0, 1, 1⟩ : BBox).maxLat :=
  (bbox_invariant_holds_through_search envBase (GeoJSON.feature squareA) "downloads").1
    ⟨0, 0, 1, 1⟩ (by rfl)

/-- C5: per-scene failures (no available product; artifact still
preparing) print a console line and return normally, so the loop skips
just that scene and continues with the remaining ones; a missing
credential or a malformed search response aborts the whole run; an HTTP
error status raises an exception that crashes the run, reported on the
console as a traceback; and nothing is retried: at most one
download-options POST, one download-request POST and one file GET per
scene, and at most one scene-search POST per run. -/
theorem failures_skip_or_abort_and_nothing_retried
    (env : Env) (gj : GeoJSON) (out sid : String) :
    (∀ items, raisesForStatus (env.optsStatus sid) = false →
      (env.optsResp sid).data = some items →
      items.find? (fun item => item.available) = none →
      download_scene env sid out =
        (Except.ok none,
         [Event.post_options sid,
          Event.println ("[WARN] No available products for scene: " ++ sid)])) ∧
    (∀ items it d, raisesForStatus (env.optsStatus sid) = false →
      (env.optsResp sid).data = some items →
      items.find? (fun item => item.available) = some it →
      raisesForStatus (env.reqStatus sid) = false →
      (env.reqResp sid).data = some d →
      d.availableDownloads = [] →
      ∃ evs, download_scene env sid out = (Except.ok none, evs) ∧
        Event.println "[INFO] Download is being prepared; no immediate link available." ∈ evs) ∧
    (∀ s rest acc v evs, download_scene env s.entityId out = (Except.ok v, evs) →
      downloadLoop env out (s :: rest) acc =
        downloadLoop env out rest ((acc ++ [sceneLine s]) ++ evs)) ∧
    (env.apiToken = none →
      mainRun env gj out =
        (RunResult.exit 1,
         [Event.println "Error: EROS_API_TOKEN environment variable not set."])) ∧
    (∀ k bbox, env.apiToken = some k → parse_geojson_bbox gj = Except.ok bbox →
      raisesForStatus env.searchStatus = false → env.searchResp.data = none →
      (mainRun env gj out).1 = RunResult.exit 1 ∧
      ∀ e ∈ (mainRun env gj out).2, isDownloadAttempt e = false) ∧
    (raisesForStatus (env.optsStatus sid) = true →
      download_scene env sid out =
        (Except.error "HTTPError: download-options",
         [Event.post_options sid,
          Event.println "Traceback: requests.exceptions.HTTPError"])) ∧
    (∀ s rest acc m evs, download_scene env s.entityId out = (Except.error m, evs) →
      (downloadLoop env out (s :: rest) acc).1 = RunResult.crash m) ∧
    ((download_scene env sid out).2.countP isPostOptionsEv ≤ 1 ∧
     (download_scene env sid out).2.countP isPostRequestEv ≤ 1 ∧
     (download_scene env sid out).2.countP isGetEv ≤ 1) ∧
    (mainRun env gj out).2.countP isPostSearchEv ≤ 1 := by
  refine ⟨?_, ?_, ?_, ?_, ?_, ?_, ?_, download_scene_counts env sid out,
    mainRun_search_once env gj out⟩
  · intro items h1 h2 h3
    exact download_scene_no_available env sid out items h1 h2 h3
  · intro items it d h1 h2 h3 h4 h5 h6
    cases h7 : d.preparingDownloads.isEmpty with
    | true =>
      exact ⟨_,
        download_scene_preparing_empty env sid out items it d h1 h2 h3 h4 h5 h6 h7,
        by simp⟩
    | false =>
      exact ⟨_,
        download_scene_preparing env sid out items it d h1 h2 h3 h4 h5 h6 h7,
        by simp⟩
  · intro s rest acc v evs h
    exact downloadLoop_cons_ok env out s rest acc v evs h
  · intro htok
    unfold mainRun
    rw [htok]
  · intro k bbox htok hparse hstatus hdata
    constructor
    · unfold mainRun searchAndDownload
      rw [htok, hparse, hstatus, hdata]
      rfl
    · unfold mainRun searchAndDownload
      rw [htok, hparse, hstatus, hdata]
      intro e he
      simp at he
      rcases he with rfl | rfl | rfl | rfl <;> rfl
  · intro hs
    exact download_scene_opts_http_error env sid out hs
  · intro s rest acc m evs h
    rw [downloadLoop_cons_error env out s rest acc m evs h]

/-- Witness for C5: a scene with an empty download-options list is
skipped with a warning. -/
theorem failures_skip_or_abort_and_nothing_retried_witness :
    download_scene envBase "S1" "downloads" =
      (Except.ok none,
       [Event.post_options "S1",
        Event.println ("[WARN] No available products for scene: " ++ "S1")]) :=
  (failures_skip_or_abort_and_nothing_retried envBase (GeoJSON.feature squareA)
    "downloads" "S1").1 [] rfl rfl rfl

/-- C6: a download-request response reporting only preparing downloads
(no immediately available URL): the download returns without exception
(`None`), reports the pending scenes on the console, performs no second
request, writes no file and creates no directory. -/
theorem preparing_downloads_no_file_no_error
    (env : Env) (sid out : String) (items : List DownloadOption) (it : DownloadOption)
    (d : DownloadRequestData)
    (h1 : raisesForStatus (env.optsStatus sid) = false)
    (h2 : (env.optsResp sid).data = some items)
    (h3 : items.find? (fun item => item.available) = some it)
    (h4 : raisesForStatus (env.reqStatus sid) = false)
    (h5 : (env.reqResp sid).data = some d)
    (h6 : d.availableDownloads = [])
    (h7 : d.preparingDownloads.isEmpty = false) :
    download_scene env sid out =
      (Except.ok none,
       [Event.post_options sid, Event.post_request sid it.id,
        Event.println "[INFO] Download is being prepared; no immediate link available.",
        Event.println "[INFO] Scenes in 'preparing' status: (list)"]) ∧
    writesOf (download_scene env sid out).2 = [] ∧
    hasMkdir (download_scene env sid out).2 = false ∧
    (download_scene env sid out).2.countP isPostRequestEv = 1 := by
  have he := download_scene_preparing env sid out items it d h1 h2 h3 h4 h5 h6 h7
  refine ⟨he, ?_, ?_, ?_⟩ <;> rw [he] <;>
    simp [writesOf, hasMkdir, isPostRequestEv, List.countP_cons, List.countP_nil]

/-- Witness for C6 on a mocked always-preparing environment. -/
theorem preparing_downloads_no_file_no_error_witness :
    download_scene envPreparing "S1" "downloads" =
      (Except.ok none,
       [Event.post_options "S1", Event.post_request "S1" ("P-" ++ "S1"),
        Event.println "[INFO] Download is being prepared; no immediate link available.",
        Event.println "[INFO] Scenes in 'preparing' status: (list)"]) :=
  (preparing_downloads_no_file_no_error envPreparing "S1" "downloads"
    [⟨"P-" ++ "S1", true⟩] ⟨"P-" ++ "S1", true⟩ ⟨[], ["pending-" ++ "S1"]⟩
    rfl rfl rfl rfl rfl rfl rfl).1

theorem download_scene_trace_shape (env : Env) (sid out : String)
    (items : List DownloadOption) (it : DownloadOption)
    (h1 : raisesForStatus (env.optsStatus sid) = false)
    (h2 : (env.optsResp sid).data = some items)
    (h3 : items.find? (fun item => item.available) = some it) :
    ∃ tail, (download_scene env sid out).2 =
      Event.post_options sid :: Event.post_request sid it.id :: tail ∧
      ∀ pid, Event.post_request sid pid ∉ tail := by
  cases h4 : raisesForStatus (env.reqStatus sid) with
  | true =>
    rw [download_scene_req_http_error env sid out items it h1 h2 h3 h4]
    exact ⟨_, rfl, by intro pid hp; simp at hp⟩
  | false =>
    cases h5 : (env.reqResp sid).data with
    | none =>
      rw [download_scene_stage_failed env sid out items it h1 h2 h3 h4 h5]
      exact ⟨_, rfl, by intro pid hp; simp at hp⟩
    | some d =>
      cases h6 : d.availableDownloads with
      | nil =>
        cases h7 : d.preparingDownloads.isEmpty with
        | true =>
          rw [download_scene_preparing_empty env sid out items it d h1 h2 h3 h4 h5 h6 h7]
          exact ⟨_, rfl, by intro pid hp; simp at hp⟩
        | false =>
          rw [download_scene_preparing env sid out items it d h1 h2 h3 h4 h5 h6 h7]
          exact ⟨_, rfl, by intro pid hp; simp at hp⟩
      | cons url urls =>
        cases h7 : raisesForStatus (env.getStatus url) with
        | true =>
          rw [download_scene_get_http_error env sid out items it d url urls h1 h2 h3 h4 h5 h6 h7]
          exact ⟨_, rfl, by intro pid hp; simp at hp⟩
        | false =>
          rw [download_scene_success env sid out items it d url urls h1 h2 h3 h4 h5 h6 h7]
          exact ⟨_, rfl, by intro pid hp; simp at hp⟩

/-- C7: with a download-options items list, the scene download stages
exactly the first item whose `available` flag is set — order preserved:
everything before the selected item has the flag unset, the staged POST
carries its id, and no other product id is ever staged — and when no
item has the flag, the scene is skipped with a no-available-products
warning. -/
theorem first_available_product_selected
    (env : Env) (sid out : String) (items : List DownloadOption)
    (h1 : raisesForStatus (env.optsStatus sid) = false)
    (h2 : (env.optsResp sid).data = some items) :
    (∀ it, items.find? (fun item => item.available) = some it →
      (it.available = true ∧
       ∃ pre post, items = pre ++ it :: post ∧ ∀ x ∈ pre, x.available = false) ∧
      Event.post_request sid it.id ∈ (download_scene env sid out).2 ∧
      ∀ pid, Event.post_request sid pid ∈ (download_scene env sid out).2 → pid = it.id) ∧
    (items.find? (fun item => item.available) = none →
      download_scene env sid out =
        (Except.ok none,
         [Event.post_options sid,
          Event.println ("[WARN] No available products for scene: " ++ sid)])) := by
  constructor
  · intro it h3
    obtain ⟨tail, ht, hno⟩ := download_scene_trace_shape env sid out items it h1 h2 h3
    refine ⟨find?_eq_some_first _ items it h3, ?_, ?_⟩
    · rw [ht]
      exact List.mem_cons_of_mem _ (List.mem_cons_self _ _)
    · intro pid hp
      rw [ht] at hp
      rcases List.mem_cons.mp hp with heq2 | hp2
      · exact absurd heq2 (by simp)
      · rcases List.mem_cons.mp hp2 with heq2 | hp3
        · exact (Event.post_request.inj heq2).2
        · exact absurd hp3 (hno pid)
  · intro h3
    exact download_scene_no_available env sid out items h1 h2 h3

/-- Witness for C7: with a single available product, its id is staged. -/
theorem first_available_product_selected_witness :
    Event.post_request "S1" ("P-" ++ "S1") ∈ (download_scene envTwoScenes "S1" "downloads").2 :=
  (((first_available_product_selected envTwoScenes "S1" "downloads"
    [⟨"P-" ++ "S1", true⟩] rfl rfl).1) ⟨"P-" ++ "S1", true⟩ rfl).2.1

/-- C8: a scene whose staged request yields an immediately available URL
writes exactly one file, `<out_dir>/<entityId>.tif`, whose contents are
the bytes of the HTTP response for that URL; and an end-to-end run whose
search returns two such scenes writes exactly those two files. -/
theorem immediate_url_writes_scene_file (env : Env) (gj : GeoJSON) (out : String) :
    (∀ sid items it d url urls,
      raisesForStatus (env.optsStatus sid) = false →
      (env.optsResp sid).data = some items →
      items.find? (fun item => item.available) = some it →
      raisesForStatus (env.reqStatus sid) = false →
      (env.reqResp sid).data = some d →
      d.availableDownloads = url :: urls →
      raisesForStatus (env.getStatus url) = false →
      writesOf (download_scene env sid out).2 =
        [(out ++ "/" ++ sid ++ ".tif", env.getBody url)]) ∧
    (∀ k bbox s1 s2 items1 it1 d1 url1 urls1 items2 it2 d2 url2 urls2,
      env.apiToken = some k →
      parse_geojson_bbox gj = Except.ok bbox →
      raisesForStatus env.searchStatus = false →
      env.searchResp.data = some { results := some [s1, s2] } →
      raisesForStatus (env.optsStatus s1.entityId) = false →
      (env.optsResp s1.entityId).data = some items1 →
      items1.find? (fun item => item.available) = some it1 →
      raisesForStatus (env.reqStatus s1.entityId) = false →
      (env.reqResp s1.entityId).data = some d1 →
      d1.availableDownloads = url1 :: urls1 →
      raisesForStatus (env.getStatus url1) = false →
      raisesForStatus (env.optsStatus s2.entityId) = false →
      (env.optsResp s2.entityId).data = some items2 →
      items2.find? (fun item => item.available) = some it2 →
      raisesForStatus (env.reqStatus s2.entityId) = false →
      (env.reqResp s2.entityId).data = some d2 →
      d2.availableDownloads = url2 :: urls2 →
      raisesForStatus (env.getStatus url2) = false →
      writesOf (mainRun env gj out).2 =
        [(out ++ "/" ++ s1.entityId ++ ".tif", env.getBody url1),
         (out ++ "/" ++ s2.entityId ++ ".tif", env.getBody url2)]) := by
  constructor
  · intro sid items it d url urls h1 h2 h3 h4 h5 h6 h7
    rw [download_scene_success env sid out items it d url urls h1 h2 h3 h4 h5 h6 h7]
    rfl
  · intro k bbox s1 s2 items1 it1 d1 url1 urls1 items2 it2 d2 url2 urls2
      htok hparse hstatus hdata ha1 ha2 ha3 ha4 ha5 ha6 ha7 hb1 hb2 hb3 hb4 hb5 hb6 hb7
    have hd1 := download_scene_success env s1.entityId out items1 it1 d1 url1 urls1
      ha1 ha2 ha3 ha4 ha5 ha6 ha7
    have hd2 := download_scene_success env s2.entityId out items2 it2 d2 url2 urls2
      hb1 hb2 hb3 hb4 hb5 hb6 hb7
    unfold mainRun searchAndDownload
    rw [htok, hparse, hstatus, hdata]
    dsimp only [Prod.map]
    rw [if_neg Bool.false_ne_true]
    rw [downloadLoop_cons_ok env out s1 [s2] _ _ _ hd1]
    rw [downloadLoop_cons_ok env out s2 [] _ _ _ hd2]
    simp only [downloadLoop]
    simp [writesOf_append, writesOf, sceneLine]

/-- Witness for C8: the two-scene mocked environment writes the two
`.tif` files with the mocked bodies. -/
theorem immediate_url_writes_scene_file_witness :
    writesOf (mainRun envTwoScenes (GeoJSON.feature squareA) "downloads").2 =
      [("downloads" ++ "/" ++ "S1" ++ ".tif", envTwoScenes.getBody ("u-" ++ "S1")),
       ("downloads" ++ "/" ++ "S2" ++ ".tif", envTwoScenes.getBody ("u-" ++ "S2"))] :=
  (immediate_url_writes_scene_file envTwoScenes (GeoJSON.feature squareA) "downloads").2
    "token" ⟨0, 0, 1, 1⟩ ⟨"S1", some "Scene One"⟩ ⟨"S2", some "Scene Two"⟩
    [⟨"P-" ++ "S1", true⟩] ⟨"P-" ++ "S1", true⟩ ⟨["u-" ++ "S1"], []⟩ ("u-" ++ "S1") []
    [⟨"P-" ++ "S2", true⟩] ⟨"P-" ++ "S2", true⟩ ⟨["u-" ++ "S2"], []⟩ ("u-" ++ "S2") []
    rfl (by rfl) rfl rfl rfl rfl rfl rfl rfl rfl rfl rfl rfl rfl rfl rfl rfl rfl

/-- C10: the output directory is created only after an immediately
available download URL has been obtained — a trace containing the mkdir
implies the download-request response carried a nonempty
`availableDownloads` list — and on every early-return path (the Python
function returns `None`: no download options, no available product,
staging failure, artifact preparing) the trace contains neither a
directory creation nor a file write, so the filesystem is untouched. -/
theorem mkdir_only_after_available_url (env : Env) (sid out : String) :
    (hasMkdir (download_scene env sid out).2 = true →
      ∃ d, (env.reqResp sid).data = some d ∧ d.availableDownloads ≠ []) ∧
    (∀ evs, download_scene env sid out = (Except.ok none, evs) →
      hasMkdir evs = false ∧ writesOf evs = []) := by
  constructor
  · intro hmk
    cases h1 : raisesForStatus (env.optsStatus sid) with
    | true =>
      rw [download_scene_opts_http_error env sid out h1] at hmk
      simp [hasMkdir] at hmk
    | false =>
      cases h2 : (env.optsResp sid).data with
      | none =>
        rw [download_scene_no_options env sid out h1 h2] at hmk
        simp [hasMkdir] at hmk
      | some items =>
        cases h3 : items.find? (fun item => item.available) with
        | none =>
          rw [download_scene_no_available env sid out items h1 h2 h3] at hmk
          simp [hasMkdir] at hmk
        | some it =>
          cases h4 : raisesForStatus (env.reqStatus sid) with
          | true =>
            rw [download_scene_req_http_error env sid out items it h1 h2 h3 h4] at hmk
            simp [hasMkdir] at hmk
          | false =>
            cases h5 : (env.reqResp sid).data with
            | none =>
              rw [download_scene_stage_failed env sid out items it h1 h2 h3 h4 h5] at hmk
              simp [hasMkdir] at hmk
            | some d =>
              cases h6 : d.availableDownloads with
              | nil =>
                cases h7 : d.preparingDownloads.isEmpty with
                | true =>
                  rw [download_scene_preparing_empty env sid out items it d
                    h1 h2 h3 h4 h5 h6 h7] at hmk
                  simp [hasMkdir] at hmk
                | false =>
                  rw [download_scene_preparing env sid out items it d
                    h1 h2 h3 h4 h5 h6 h7] at hmk
                  simp [hasMkdir] at hmk
              | cons url urls => exact ⟨d, rfl, by rw [h6]; simp⟩
  · intro evs hevs
    cases h1 : raisesForStatus (env.optsStatus sid) with
    | true =>
      rw [download_scene_opts_http_error env sid out h1] at hevs
      simp at hevs
    | false =>
      cases h2 : (env.optsResp sid).data with
      | none =>
        rw [download_scene_no_options env sid out h1 h2] at hevs
        injection hevs with h9 h10
        subst h10
        exact ⟨rfl, rfl⟩
      | some items =>
        cases h3 : items.find? (fun item => item.available) with
        | none =>
          rw [download_scene_no_available env sid out items h1 h2 h3] at hevs
          injection hevs with h9 h10
          subst h10
          exact ⟨rfl, rfl⟩
        | some it =>
          cases h4 : raisesForStatus (env.reqStatus sid) with
          | true =>
            rw [download_scene_req_http_error env sid out items it h1 h2 h3 h4] at hevs
            simp at hevs
          | false =>
            cases h5 : (env.reqResp sid).data with
            | none =>
              rw [download_scene_stage_failed env sid out items it h1 h2 h3 h4 h5] at hevs
              injection hevs with h9 h10
              subst h10
              exact ⟨rfl, rfl⟩
            | some d =>
              cases h6 : d.availableDownloads with
              | nil =>
                cases h7 : d.preparingDownloads.isEmpty with
                | true =>
                  rw [download_scene_preparing_empty env sid out items it d
                    h1 h2 h3 h4 h5 h6 h7] at hevs
                  injection hevs with h9 h10
                  subst h10
                  exact ⟨rfl, rfl⟩
                | false =>
                  rw [download_scene_preparing env sid out items it d
                    h1 h2 h3 h4 h5 h6 h7] at hevs
                  injection hevs with h9 h10
                  subst h10
                  exact ⟨rfl, rfl⟩
              | cons url urls =>
                cases h7 : raisesForStatus (env.getStatus url) with
                | true =>
                  rw [download_scene_get_http_error env sid out items it d url urls
                    h1 h2 h3 h4 h5 h6 h7] at hevs
                  simp at hevs
                | false =>
                  rw [download_scene_success env sid out items it d url urls
                    h1 h2 h3 h4 h5 h6 h7] at hevs
                  simp at hevs

/-- Witness for C10: the preparing-only environment leaves the
filesystem untouched. -/
theorem mkdir_only_after_available_url_witness :
    hasMkdir
      [Event.post_options "S1", Event.post_request "S1" ("P-" ++ "S1"),
       Event.println "[INFO] Download is being prepared; no immediate link available.",
       Event.println "[INFO] Scenes in 'preparing' status: (list)"] = false ∧
    writesOf
      [Event.post_options "S1", Event.post_request "S1" ("P-" ++ "S1"),
       Event.println "[INFO] Download is being prepared; no immediate link available.",
       Event.println "[INFO] Scenes in 'preparing' status: (list)"] = [] :=
  (mkdir_only_after_available_url envPreparing "S1" "downloads").2
    [Event.post_options "S1", Event.post_request "S1" ("P-" ++ "S1"),
     Event.println "[INFO] Download is being prepared; no immediate link available.",
     Event.println "[INFO] Scenes in 'preparing' status: (list)"] (by rfl)

end FuelMap
